import Mathlib

/-!
Verification of the swarm agent provisioning protocol (`agent.py`).

The development shallowly embeds the `Agent` state-machine handlers: JSON-like
resources read from the kube cache, the UUID extraction from ISO URLs, the
BareMetalHost status mutation and its HTTP PUT request, and the environment
built for the agent binary launch.  The retrying engine (`statemachine`
module) and the container-config mixin are not part of the provided sources
and are modelled from the specification where a claim needs them.
-/

/-- A JSON-like value, used to model the Kubernetes-style resources the agent
reads from the cache and writes back over HTTP.  Objects are association
lists in insertion order, as Python dicts are. -/
inductive JVal where
  | null : JVal
  | bool : Bool → JVal
  | num : Int → JVal
  | str : String → JVal
  | arr : List JVal → JVal
  | obj : List (String × JVal) → JVal

/-- Association-list lookup: `d[k]` / the successful case of `d.get(k)`. -/
def dictGet : List (String × JVal) → String → Option JVal
  | [], _ => none
  | (k', v) :: rest, k => if k' = k then some v else dictGet rest k

/-- Key assignment `d[k] = v` on a Python dict: replaces the value in place
when the key is present (keeping its position), appends otherwise. -/
def setKey : List (String × JVal) → String → JVal → List (String × JVal)
  | [], k, v => [(k, v)]
  | (k', v') :: rest, k, v =>
    if k' = k then (k, v) :: rest else (k', v') :: setKey rest k v

/-- Projection used when the code expects a JSON string. -/
def asStr : JVal → Option String
  | .str s => some s
  | _ => none

/-- Projection used when the code expects a JSON object (a dict). -/
def asObj : JVal → Option (List (String × JVal))
  | .obj fs => some fs
  | _ => none

/-- Python dict read `d.get(k, default)` with an explicit default. -/
def dictGetD (fields : List (String × JVal)) (k : String) (default : JVal) : JVal :=
  (dictGet fields k).getD default

/-- The character class `[0-9a-f]` of the UUID regex in
`Agent.get_infraenv_id_from_url`. -/
def isHexLower (c : Char) : Bool :=
  (('0' ≤ c && c ≤ '9') || ('a' ≤ c && c ≤ 'f'))

/-- Consume exactly `n` characters all matching `[0-9a-f]`, as the regex
fragment `[0-9a-f]{n}` does; returns the consumed run and the remainder. -/
def hexGroup : Nat → List Char → Option (List Char × List Char)
  | 0, cs => some ([], cs)
  | _ + 1, [] => none
  | n + 1, c :: cs =>
    if isHexLower c then
      match hexGroup n cs with
      | some (g, rest) => some (c :: g, rest)
      | none => none
    else none

/-- Consume a literal dash, as the `-` in the UUID regex. -/
def dashThen : List Char → Option (List Char)
  | '-' :: rest => some rest
  | _ => none

/-- Consume the regex fragment `[0-9a-f]{n}-`: a hex run of length `n`
followed by a dash. -/
def groupDash (n : Nat) (cs : List Char) : Option (List Char × List Char) :=
  match hexGroup n cs with
  | some (g, r) =>
    match dashThen r with
    | some rd => some (g, rd)
    | none => none
  | none => none

/-- Match the anchored regex `[0-9a-f]{8}-[0-9a-f]{4}-[0-9a-f]{4}-[0-9a-f]{4}-[0-9a-f]{12}`
at the head of the character list, returning the matched characters. -/
def matchUuidAt (cs : List Char) : Option (List Char) :=
  match groupDash 8 cs with
  | some (g1, r1) =>
    match groupDash 4 r1 with
    | some (g2, r2) =>
      match groupDash 4 r2 with
      | some (g3, r3) =>
        match groupDash 4 r3 with
        | some (g4, r4) =>
          match hexGroup 12 r4 with
          | some (g5, _) =>
            some (g1 ++ '-' :: (g2 ++ '-' :: (g3 ++ '-' :: (g4 ++ '-' :: g5))))
          | none => none
        | none => none
      | none => none
    | none => none
  | none => none

/-- Embedding of `re.search` for the fixed-length UUID regex: try every start position from
the left, returning the first (leftmost) match. -/
def searchUuid : List Char → Option (List Char)
  | [] => none
  | c :: cs =>
    match matchUuidAt (c :: cs) with
    | some m => some m
    | none => searchUuid cs

/-- Embedding of `Agent.get_infraenv_id_from_url`: search the URL for the
UUID regex; return the matched group, or raise `RuntimeError` when there is
no match. -/
def get_infraenv_id_from_url (url : String) : Except String String :=
  match searchUuid url.data with
  | some m => .ok (String.mk m)
  | none => .error "Could not find infraenv ID from url"

/-- A character list of RFC4122 shape: five dash-separated groups of
lowercase hex digits with lengths 8, 4, 4, 4 and 12.  This is the
specification-side description of what the UUID regex denotes. -/
def isUuidShapedL (m : List Char) : Prop :=
  ∃ g1 g2 g3 g4 g5 : List Char,
    m = g1 ++ '-' :: (g2 ++ '-' :: (g3 ++ '-' :: (g4 ++ '-' :: g5))) ∧
    g1.length = 8 ∧ g2.length = 4 ∧ g3.length = 4 ∧ g4.length = 4 ∧
    g5.length = 12 ∧
    (∀ c ∈ g1, isHexLower c = true) ∧ (∀ c ∈ g2, isHexLower c = true) ∧
    (∀ c ∈ g3, isHexLower c = true) ∧ (∀ c ∈ g4, isHexLower c = true) ∧
    (∀ c ∈ g5, isHexLower c = true)

/-- The swarm-wide configuration fields of `SwarmAgentConfig` that the
verified handlers read (paths are kept as strings). -/
structure SwarmAgentConfig where
  agent_binary : String
  agent_image_path : String
  ca_cert_path : String
  token : String
  pull_secret : String
  service_url : String
  k8s_api_server_url : String

/-- The per-agent configuration `ClusterAgentConfig`. -/
structure ClusterAgentConfig where
  index : Nat
  mac_address : String
  identifier : String
  machine_hostname : String
  machine_ip : String
  cluster_identifier : String
  cluster_hostnames : List String
  cluster_ips : List String

/-- The mutable per-agent runtime attributes.  `state` is the current step
name kept by the state-machine base class; the three URL/identifier
attributes are set dynamically by the handlers, so they are `Option`-valued
(`none` models the attribute not existing yet). -/
structure AgentState where
  state : String
  infraenv_iso_url : Option String
  bmh_iso_url : Option String
  infraenv_id : Option String

/-- The chained dict reads of `Agent.wait_iso_url_infraenv`: `.get` of the
key `"status"` defaulting to an empty dict, then `.get` of the key
`"isoDownloadURL"` defaulting to the empty string; `none` models the
`AttributeError` raised when a level is not of the expected JSON shape. -/
def infraenvIsoUrl (infraenv : JVal) : Option String := do
  let fs ← asObj infraenv
  let status ← asObj (dictGetD fs "status" (JVal.obj []))
  asStr (dictGetD status "isoDownloadURL" (JVal.str ""))

/-- The chained dict reads of `Agent.wait_iso_url_bmh`: `.get` of `"spec"`
then `"image"`, each defaulting to an empty dict, then `.get` of `"url"`
defaulting to the empty string. -/
def bmhIsoUrl (baremetalhost : JVal) : Option String := do
  let fs ← asObj baremetalhost
  let spec ← asObj (dictGetD fs "spec" (JVal.obj []))
  let image ← asObj (dictGetD spec "image" (JVal.obj []))
  asStr (dictGetD image "url" (JVal.str ""))

/-- Embedding of `Agent.wait_iso_url_infraenv`.  `infraenv` is the kube-cache
read result (`none` = resource absent).  Returns the updated agent attributes
and the state name the handler returns; `.error` models a raised exception. -/
def wait_iso_url_infraenv (a : AgentState) (infraenv : Option JVal)
    (next_state : String) : Except String (AgentState × String) :=
  match infraenv with
  | some ie =>
    match infraenvIsoUrl ie with
    | some iso_url =>
      if iso_url = "" then .ok (a, a.state)
      else
        match get_infraenv_id_from_url iso_url with
        | .ok i =>
          .ok ({ a with infraenv_iso_url := some iso_url, infraenv_id := some i }, next_state)
        | .error e => .error e
    | none => .error "TypeError"
  | none => .ok (a, a.state)

/-- Embedding of `Agent.wait_iso_url_bmh`.  Note that on a non-empty BMH URL
the code stores the BMH URL in `bmh_iso_url` but recomputes `infraenv_id`
from the previously stored `self.infraenv_iso_url`, not from the BMH URL;
reading the attribute when it was never assigned raises `AttributeError`. -/
def wait_iso_url_bmh (a : AgentState) (baremetalhost : Option JVal)
    (next_state : String) : Except String (AgentState × String) :=
  match baremetalhost with
  | some bmh =>
    match bmhIsoUrl bmh with
    | some iso_url =>
      if iso_url = "" then .ok (a, a.state)
      else
        match a.infraenv_iso_url with
        | some prev =>
          match get_infraenv_id_from_url prev with
          | .ok i =>
            .ok ({ a with bmh_iso_url := some iso_url, infraenv_id := some i }, next_state)
          | .error e => .error e
        | none => .error "AttributeError"
    | none => .error "TypeError"
  | none => .ok (a, a.state)

/-- The full-replacement status object built by
`Agent.set_bmh_provisioning_state` for a requested provisioning state. -/
def fixedStatus (provisioning_state : String) : JVal :=
  JVal.obj
    [("errorCount", JVal.num 0),
     ("errorMessage", JVal.str ""),
     ("goodCredentials", JVal.obj []),
     ("hardwareProfile", JVal.str ""),
     ("operationalStatus", JVal.str "discovered"),
     ("poweredOn", JVal.bool true),
     ("provisioning",
       JVal.obj [("state", JVal.str provisioning_state),
                 ("ID", JVal.str ""),
                 ("image", JVal.obj [("url", JVal.str "")])])]

/-- The HTTP PUT issued by `Agent.set_bmh_provisioning_state` via
`requests.put`: target URL, JSON body, the Authorization header value, and
the `verify` argument (CA certificate path). -/
structure PutRequest where
  url : String
  body : JVal
  authorization : String
  verify : String

/-- The status sub-resource endpoint: the API base followed by
`/apis/metal3.io/v1alpha1/namespaces/`, the cluster identifier,
`/baremetalhosts/`, the host name, and `/status`. -/
def bmhStatusEndpoint (sw : SwarmAgentConfig) (cl : ClusterAgentConfig)
    (identifier : String) : String :=
  sw.k8s_api_server_url ++ "/apis/metal3.io/v1alpha1/namespaces/"
    ++ cl.cluster_identifier ++ "/baremetalhosts/" ++ identifier ++ "/status"

/-- Model of `requests.Response.raise_for_status`: per the requests library it raises
`HTTPError` exactly for client-error (4xx) and server-error (5xx) response
status codes, and returns normally otherwise. -/
def raise_for_status (status : Nat) : Except String Unit :=
  if 400 ≤ status ∧ status < 600 then .error ("HTTP error " ++ toString status)
  else .ok ()

/-- Outcome of `Agent.set_bmh_provisioning_state`: the PUT request issued (if
the BMH resource existed in the cache) and the call's result — `true` /
`false` as returned, or the exception raised by `raise_for_status`. -/
structure BmhPutOutcome where
  request : Option PutRequest
  result : Except String Bool

/-- Embedding of `Agent.set_bmh_provisioning_state`.  `bmh` is the cached
BareMetalHost's field list (`none` = resource absent); `responseStatus` is
the HTTP status code of the PUT response.  The whole resource, with its
`"status"` key replaced by the fixed status object, is sent as the JSON
body; `self.identifier` is `cluster_agent_config.identifier`. -/
def set_bmh_provisioning_state (sw : SwarmAgentConfig) (cl : ClusterAgentConfig)
    (bmh : Option (List (String × JVal))) (responseStatus : Nat)
    (provisioning_state : String) : BmhPutOutcome :=
  match bmh with
  | some fields =>
    let updated := setKey fields "status" (fixedStatus provisioning_state)
    { request := some
        { url := bmhStatusEndpoint sw cl cl.identifier
          body := JVal.obj updated
          authorization := "Bearer " ++ sw.token
          verify := sw.ca_cert_path }
      result :=
        match raise_for_status responseStatus with
        | .ok _ => .ok true
        | .error e => .error e }
  | none => { request := none, result := .ok false }

/-- Embedding of `Agent.ready_bmh`: advance when
`set_bmh_provisioning_state("ready")` returns `True`, hold when it returns
`False`, propagate a raised exception. -/
def ready_bmh (sw : SwarmAgentConfig) (cl : ClusterAgentConfig)
    (bmh : Option (List (String × JVal))) (responseStatus : Nat)
    (cur next_state : String) : Except String String :=
  match (set_bmh_provisioning_state sw cl bmh responseStatus "ready").result with
  | .ok true => .ok next_state
  | .ok false => .ok cur
  | .error e => .error e

/-- Embedding of `Agent.provisioned_bmh`: as `ready_bmh` but with state
`"provisioned"`. -/
def provisioned_bmh (sw : SwarmAgentConfig) (cl : ClusterAgentConfig)
    (bmh : Option (List (String × JVal))) (responseStatus : Nat)
    (cur next_state : String) : Except String String :=
  match (set_bmh_provisioning_state sw cl bmh responseStatus "provisioned").result with
  | .ok true => .ok next_state
  | .ok false => .ok cur
  | .error e => .error e

/-- Embedding of `Agent.initialize`: create the agent, log and graphroot
directories (an effect outside the state space, elided here) and return the
next state unconditionally. -/
def initStep (next_state : String) : Except String String := .ok next_state

/-- Embedding of `Agent.download_iso`: `check_call` of `curl` on the stored
BMH ISO URL with `check=True` raises `CalledProcessError` on a non-zero exit
code, and the handler returns the next state otherwise. -/
def download_iso (curlExit : Int) (next_state : String) : Except String String :=
  if curlExit ≠ 0 then .error "CalledProcessError" else .ok next_state

/-- Modelled from the spec: `create_container_configs` comes from the
`WithContainerConfigs` mixin (module `withcontainerconfigs`), which is not
among the provided sources.  Per the spec (§4.2 step 7) it delegates to the
container-config provider and always advances on success; a failure inside
the provider is a raised exception. -/
def create_container_configs (success : Bool) (next_state : String) :
    Except String String :=
  if success then .ok next_state else .error "container config generation failed"

/-- Embedding of `ip.split("/")[0]`: the characters of `ip` before its first `/` (all of
`ip` when it has none). -/
def splitSlashHead (s : String) : String :=
  String.mk (s.data.takeWhile (fun c => c ≠ '/'))

/-- Lookup in the environment dict built by `Agent.run_agent`. -/
def envGet : List (String × String) → String → Option String
  | [], _ => none
  | (k', v) :: rest, k => if k' = k then some v else envGet rest k

/-- The `agent_environment` dict literal of `Agent.run_agent`.  The paths
derived from the agent directory (container config, storage conf, reboot
marker) and the generated `host_id` are passed in as strings. -/
def agent_environment (sw : SwarmAgentConfig) (cl : ClusterAgentConfig)
    (container_config container_storage_conf host_id fake_reboot_marker_path : String) :
    List (String × String) :=
  [("CONTAINERS_CONF", container_config),
   ("CONTAINERS_STORAGE_CONF", container_storage_conf),
   ("PULL_SECRET_TOKEN", sw.pull_secret),
   ("DRY_ENABLE", "true"),
   ("DRY_HOST_ID", host_id),
   ("DRY_FORCED_MAC_ADDRESS", cl.mac_address),
   ("DRY_FAKE_REBOOT_MARKER_PATH", fake_reboot_marker_path),
   ("DRY_FORCED_HOSTNAME", cl.machine_hostname),
   ("DRY_HOSTNAMES", String.intercalate "," cl.cluster_hostnames),
   ("DRY_IPS", String.intercalate "," (cl.cluster_ips.map splitSlashHead)),
   ("DRY_FORCED_HOST_IPV4", cl.machine_ip)]

/-- Embedding of the tail of `Agent.run_agent`: after `agent_process.wait()`
delivers the exit code, a non-zero code returns the current state (hold) and
a zero code returns the next state. -/
def run_agent_step (exitCode : Int) (cur next_state : String) : String :=
  if exitCode ≠ 0 then cur else next_state

/-- Embedding of `Agent.done`: the terminal step's handler returns the
current state. -/
def done (cur : String) : String := cur

/-- The ordered step names of the agent pipeline, as in the `OrderedDict`
passed to the state-machine base class. -/
def agentStepOrder : List String :=
  ["Initializing",
   "Waiting for ISO URL on InfraEnv",
   "Seting BMH provisioning state to \"ready\"",
   "Waiting for ISO URL on BMH",
   "Download ISO",
   "Seting BMH provisioning state to \"provisioned\"",
   "Generating container configurations",
   "Running agent",
   "Done"]

/-- Modelled from the spec: in the `RetryingStateMachine` engine (module
`statemachine`, not among the provided sources) the `next_step_name` handed
to a handler is the name immediately following the current step in the fixed
ordering (§4.1). -/
def nextOf : List String → String → Option String
  | [], _ => none
  | [_], _ => none
  | a :: b :: rest, cur => if a = cur then some b else nextOf (b :: rest) cur

/-- Modelled from the spec: the `RetryingStateMachine.run()` loop (§4.1),
fuel-bounded.  While the current step is not terminal, the engine invokes
the handler with the current step and its successor and moves its pointer to
the returned name; the returned list is the sequence of pointer values the
run visits (starting at the initial one). -/
def engineStates (handler : String → String → String) (steps : List String)
    (terminal : String) : Nat → String → List String
  | 0, cur => [cur]
  | fuel + 1, cur =>
    if cur = terminal then [cur]
    else
      cur :: engineStates handler steps terminal fuel
        (handler cur ((nextOf steps cur).getD cur))

/-- Modelled from the spec: as `engineStates`, but returning the sequence of
step names whose handler `run()` actually invokes; reaching the terminal
step ends the run with no invocation (§4.1). -/
def engineInvoked (handler : String → String → String) (steps : List String)
    (terminal : String) : Nat → String → List String
  | 0, _ => []
  | fuel + 1, cur =>
    if cur = terminal then []
    else
      cur :: engineInvoked handler steps terminal fuel
        (handler cur ((nextOf steps cur).getD cur))

/-- A concrete swarm configuration used by the concrete-input theorems. -/
def sampleSwarmConfig : SwarmAgentConfig :=
  { agent_binary := "/usr/bin/agent", agent_image_path := "quay.io/agent:v1",
    ca_cert_path := "/certs/ca.pem", token := "secret-token",
    pull_secret := "pull-secret", service_url := "https://assisted.example",
    k8s_api_server_url := "https://api.example:6443" }

/-- A concrete per-agent configuration used by the concrete-input theorems. -/
def sampleClusterConfig : ClusterAgentConfig :=
  { index := 0, mac_address := "52:54:00:00:00:01", identifier := "host-0",
    machine_hostname := "node-0", machine_ip := "192.168.1.10/24",
    cluster_identifier := "cluster-a",
    cluster_hostnames := ["node-0", "node-1"],
    cluster_ips := ["192.168.1.10/24", "192.168.1.11/24"] }

/-- A hex-group consumption succeeds exactly on a run of the requested
length of hex characters, and splits the input there. -/
theorem hexGroup_eq_some {n : Nat} {cs g r : List Char}
    (h : hexGroup n cs = some (g, r)) :
    g.length = n ∧ (∀ c ∈ g, isHexLower c = true) ∧ cs = g ++ r := by
  induction n generalizing cs g r with
  | zero =>
    simp only [hexGroup, Option.some.injEq, Prod.mk.injEq] at h
    obtain ⟨hg, hr⟩ := h
    subst hg; subst hr
    simp
  | succ n ih =>
    cases cs with
    | nil => simp [hexGroup] at h
    | cons c cs' =>
      simp only [hexGroup] at h
      split at h
      · cases h2 : hexGroup n cs' with
        | none => rw [h2] at h; cases h
        | some p =>
          obtain ⟨g', rest⟩ := p
          rw [h2] at h
          simp only [Option.some.injEq, Prod.mk.injEq] at h
          obtain ⟨hg, hr⟩ := h
          subst hg; subst hr
          obtain ⟨hl, hh, hcs⟩ := ih h2
          refine ⟨by simp [hl], ?_, by simp [hcs]⟩
          intro x hx
          rcases List.mem_cons.mp hx with hx | hx
          · subst hx; assumption
          · exact hh x hx
      · cases h

/-- Conversely, a hex run of length `n` followed by anything is consumed. -/
theorem hexGroup_append {n : Nat} {g r : List Char}
    (hg : ∀ c ∈ g, isHexLower c = true) (hn : g.length = n) :
    hexGroup n (g ++ r) = some (g, r) := by
  subst hn
  induction g with
  | nil => simp [hexGroup]
  | cons c g' ih =>
    simp only [List.length_cons, List.cons_append, hexGroup, List.append_eq]
    rw [if_pos (hg c (by simp)), ih (fun x hx => hg x (by simp [hx]))]

theorem dashThen_eq_some {cs r : List Char} (h : dashThen cs = some r) :
    cs = '-' :: r := by
  unfold dashThen at h
  split at h
  · simp only [Option.some.injEq] at h
    subst h; rfl
  · cases h

theorem groupDash_eq_some {n : Nat} {cs g r : List Char}
    (h : groupDash n cs = some (g, r)) :
    g.length = n ∧ (∀ c ∈ g, isHexLower c = true) ∧ cs = g ++ '-' :: r := by
  unfold groupDash at h
  cases h1 : hexGroup n cs with
  | none => rw [h1] at h; cases h
  | some p =>
    obtain ⟨g0, r0⟩ := p
    rw [h1] at h
    dsimp only at h
    cases h2 : dashThen r0 with
    | none => rw [h2] at h; cases h
    | some rd =>
      rw [h2] at h
      simp only [Option.some.injEq, Prod.mk.injEq] at h
      obtain ⟨hg, hr⟩ := h
      subst hg; subst hr
      obtain ⟨hl, hh, hcs⟩ := hexGroup_eq_some h1
      exact ⟨hl, hh, by rw [hcs, dashThen_eq_some h2]⟩

theorem groupDash_append {n : Nat} {g r : List Char}
    (hg : ∀ c ∈ g, isHexLower c = true) (hn : g.length = n) :
    groupDash n (g ++ '-' :: r) = some (g, r) := by
  unfold groupDash
  rw [hexGroup_append hg hn]
  rfl

/-- Soundness of the anchored UUID match: a match is UUID-shaped and is an
initial segment of the input. -/
theorem matchUuidAt_eq_some {cs m : List Char} (h : matchUuidAt cs = some m) :
    isUuidShapedL m ∧ ∃ rest, cs = m ++ rest := by
  unfold matchUuidAt at h
  cases h1 : groupDash 8 cs with
  | none => rw [h1] at h; cases h
  | some p1 =>
    obtain ⟨g1, r1⟩ := p1
    rw [h1] at h; dsimp only at h
    cases h2 : groupDash 4 r1 with
    | none => rw [h2] at h; cases h
    | some p2 =>
      obtain ⟨g2, r2⟩ := p2
      rw [h2] at h; dsimp only at h
      cases h3 : groupDash 4 r2 with
      | none => rw [h3] at h; cases h
      | some p3 =>
        obtain ⟨g3, r3⟩ := p3
        rw [h3] at h; dsimp only at h
        cases h4 : groupDash 4 r3 with
        | none => rw [h4] at h; cases h
        | some p4 =>
          obtain ⟨g4, r4⟩ := p4
          rw [h4] at h; dsimp only at h
          cases h5 : hexGroup 12 r4 with
          | none => rw [h5] at h; cases h
          | some p5 =>
            obtain ⟨g5, r5⟩ := p5
            rw [h5] at h
            simp only [Option.some.injEq] at h
            subst h
            obtain ⟨hl1, hx1, hc1⟩ := groupDash_eq_some h1
            obtain ⟨hl2, hx2, hc2⟩ := groupDash_eq_some h2
            obtain ⟨hl3, hx3, hc3⟩ := groupDash_eq_some h3
            obtain ⟨hl4, hx4, hc4⟩ := groupDash_eq_some h4
            obtain ⟨hl5, hx5, hc5⟩ := hexGroup_eq_some h5
            refine ⟨⟨g1, g2, g3, g4, g5, rfl, hl1, hl2, hl3, hl4, hl5,
              hx1, hx2, hx3, hx4, hx5⟩, r5, ?_⟩
            rw [hc1, hc2, hc3, hc4, hc5]
            simp

/-- Completeness of the anchored UUID match: a UUID-shaped prefix is
matched and returned whole. -/
theorem matchUuidAt_append_of_shaped {m : List Char} (hm : isUuidShapedL m)
    (rest : List Char) : matchUuidAt (m ++ rest) = some m := by
  obtain ⟨g1, g2, g3, g4, g5, hme, h1, h2, h3, h4, h5, hx1, hx2, hx3, hx4, hx5⟩ := hm
  subst hme
  have e : (g1 ++ '-' :: (g2 ++ '-' :: (g3 ++ '-' :: (g4 ++ '-' :: g5)))) ++ rest
      = g1 ++ '-' :: (g2 ++ '-' :: (g3 ++ '-' :: (g4 ++ '-' :: (g5 ++ rest)))) := by
    simp
  rw [e]
  unfold matchUuidAt
  rw [groupDash_append hx1 h1]
  dsimp only
  rw [groupDash_append hx2 h2]
  dsimp only
  rw [groupDash_append hx3 h3]
  dsimp only
  rw [groupDash_append hx4 h4]
  dsimp only
  rw [hexGroup_append hx5 h5]

/-- A UUID-shaped character list is nonempty. -/
theorem isUuidShapedL_ne_nil {m : List Char} (hm : isUuidShapedL m) : m ≠ [] := by
  obtain ⟨g1, _, _, _, _, hme, _⟩ := hm
  subst hme
  cases g1 <;> simp

/-- Soundness of the regex search: a found match is UUID-shaped and occurs
as a substring of the input. -/
theorem searchUuid_eq_some {cs m : List Char} (h : searchUuid cs = some m) :
    isUuidShapedL m ∧ ∃ pre suf, cs = pre ++ m ++ suf := by
  induction cs with
  | nil => simp [searchUuid] at h
  | cons c cs' ih =>
    rw [searchUuid] at h
    cases hm : matchUuidAt (c :: cs') with
    | some m' =>
      rw [hm] at h
      simp only [Option.some.injEq] at h
      subst h
      obtain ⟨hsh, rest, hdec⟩ := matchUuidAt_eq_some hm
      exact ⟨hsh, [], rest, by simp [hdec]⟩
    | none =>
      rw [hm] at h
      dsimp only at h
      obtain ⟨hsh, pre, suf, hdec⟩ := ih h
      exact ⟨hsh, c :: pre, suf, by simp [hdec]⟩

/-- Completeness of the regex search: an input containing a UUID-shaped
substring yields a match. -/
theorem searchUuid_exists {pre mid suf : List Char} (hmid : isUuidShapedL mid) :
    ∃ m, searchUuid (pre ++ mid ++ suf) = some m := by
  induction pre with
  | nil =>
    cases hcs : mid ++ suf with
    | nil =>
      exact absurd (List.append_eq_nil.mp hcs).1 (isUuidShapedL_ne_nil hmid)
    | cons c cs' =>
      refine ⟨mid, ?_⟩
      simp only [List.nil_append]
      rw [hcs, searchUuid, ← hcs, matchUuidAt_append_of_shaped hmid]
  | cons c pre' ih =>
    simp only [List.cons_append]
    rw [searchUuid]
    cases hm : matchUuidAt (c :: (pre' ++ mid ++ suf)) with
    | some m' => exact ⟨m', rfl⟩
    | none =>
      obtain ⟨m, hms⟩ := ih
      exact ⟨m, by rw [← hms]⟩

/-- C2: for every URL string containing a dash-separated 32-hex-digit
RFC4122-shaped substring (8-4-4-4-12 hex digits), `get_infraenv_id_from_url`
returns such a substring of the URL; for every URL string containing no such
substring, it raises `RuntimeError` instead of returning. -/
theorem claim_c2_uuid_extractor (url : String) :
    (∀ pre mid suf : List Char,
      url.data = pre ++ mid ++ suf → isUuidShapedL mid →
      ∃ m : String, get_infraenv_id_from_url url = .ok m ∧ isUuidShapedL m.data ∧
        ∃ p s : List Char, url.data = p ++ m.data ++ s) ∧
    ((¬ ∃ pre mid suf : List Char,
        url.data = pre ++ mid ++ suf ∧ isUuidShapedL mid) →
      get_infraenv_id_from_url url = .error "Could not find infraenv ID from url") := by
  constructor
  · intro pre mid suf hdec hsh
    obtain ⟨m, hm⟩ := @searchUuid_exists pre mid suf hsh
    rw [← hdec] at hm
    obtain ⟨hshm, p, s, hdm⟩ := searchUuid_eq_some hm
    refine ⟨String.mk m, ?_, hshm, p, s, hdm⟩
    unfold get_infraenv_id_from_url
    rw [hm]
  · intro hno
    unfold get_infraenv_id_from_url
    cases hs : searchUuid url.data with
    | some m =>
      obtain ⟨hshm, p, s, hdm⟩ := searchUuid_eq_some hs
      exact absurd ⟨p, m, s, hdm, hshm⟩ hno
    | none => rfl

/-- Witness for C2 at the scenario-A URL, whose embedded identifier is
`3fa85f64-5717-4562-b3fc-2c963f66afa6`; and at a UUID-free URL, on which the
extractor raises. -/
theorem claim_c2_uuid_extractor_witness :
    (∃ m : String,
      get_infraenv_id_from_url
        "https://x/images/3fa85f64-5717-4562-b3fc-2c963f66afa6/foo.iso" = .ok m ∧
      isUuidShapedL m.data ∧
      ∃ p s : List Char,
        "https://x/images/3fa85f64-5717-4562-b3fc-2c963f66afa6/foo.iso".data
          = p ++ m.data ++ s) ∧
    get_infraenv_id_from_url "https://x/images/zzz/foo.iso"
      = .error "Could not find infraenv ID from url" := by
  constructor
  · exact (claim_c2_uuid_extractor
      "https://x/images/3fa85f64-5717-4562-b3fc-2c963f66afa6/foo.iso").1
      "https://x/images/".data "3fa85f64-5717-4562-b3fc-2c963f66afa6".data
      "/foo.iso".data (by decide)
      ⟨"3fa85f64".data, "5717".data, "4562".data, "b3fc".data, "2c963f66afa6".data,
        by decide, by decide, by decide, by decide, by decide, by decide,
        by decide, by decide, by decide, by decide, by decide⟩
  · refine (claim_c2_uuid_extractor "https://x/images/zzz/foo.iso").2 ?_
    rintro ⟨pre, mid, suf, hdec, hsh⟩
    obtain ⟨m, hm⟩ := @searchUuid_exists pre mid suf hsh
    rw [← hdec] at hm
    have hnone : searchUuid "https://x/images/zzz/foo.iso".data = none := by decide
    rw [hnone] at hm
    cases hm

/-- C6: the InfraEnv wait step holds (returns the current state, touching no
attribute) when the resource is absent or its `status.isoDownloadURL` is
empty, and returns the next state only with both the URL and the identifier
parsed from it stored; on the scenario-A URL the captured identifier is
`3fa85f64-5717-4562-b3fc-2c963f66afa6`. -/
theorem claim_c6_wait_infraenv :
    (∀ (a : AgentState) (next : String),
      wait_iso_url_infraenv a none next = .ok (a, a.state)) ∧
    (∀ (a : AgentState) (ie : JVal) (next : String),
      infraenvIsoUrl ie = some "" →
      wait_iso_url_infraenv a (some ie) next = .ok (a, a.state)) ∧
    (∀ (a : AgentState) (ie : JVal) (next u : String) (a' : AgentState) (s : String),
      infraenvIsoUrl ie = some u →
      a.state ≠ next →
      wait_iso_url_infraenv a (some ie) next = .ok (a', s) →
      s = next →
      a'.infraenv_iso_url = some u ∧
      ∃ i, get_infraenv_id_from_url u = .ok i ∧ a'.infraenv_id = some i) ∧
    (∀ (a : AgentState) (next : String),
      wait_iso_url_infraenv a
        (some (JVal.obj [("status", JVal.obj [("isoDownloadURL",
          JVal.str "https://x/images/3fa85f64-5717-4562-b3fc-2c963f66afa6/foo.iso")])]))
        next
        = .ok ({ a with
            infraenv_iso_url :=
              some "https://x/images/3fa85f64-5717-4562-b3fc-2c963f66afa6/foo.iso",
            infraenv_id := some "3fa85f64-5717-4562-b3fc-2c963f66afa6" }, next)) := by
  refine ⟨fun a next => rfl, ?_, ?_, fun a next => rfl⟩
  · intro a ie next h
    unfold wait_iso_url_infraenv
    dsimp only
    rw [h]
    rfl
  · intro a ie next u a' s hu hne hres hs
    subst hs
    unfold wait_iso_url_infraenv at hres
    dsimp only at hres
    rw [hu] at hres
    dsimp only at hres
    by_cases hu0 : u = ""
    · rw [if_pos hu0] at hres
      simp only [Except.ok.injEq, Prod.mk.injEq] at hres
      exact absurd hres.2 hne
    · rw [if_neg hu0] at hres
      cases hgi : get_infraenv_id_from_url u with
      | ok i =>
        rw [hgi] at hres
        simp only [Except.ok.injEq, Prod.mk.injEq] at hres
        obtain ⟨ha', _⟩ := hres
        subst ha'
        exact ⟨rfl, i, rfl, rfl⟩
      | error e => rw [hgi] at hres; cases hres

/-- Witness for C6: a concrete agent at the discovery step, with the
scenario-A InfraEnv present. -/
theorem claim_c6_wait_infraenv_witness :
    wait_iso_url_infraenv
      { state := "Waiting for ISO URL on InfraEnv", infraenv_iso_url := none,
        bmh_iso_url := none, infraenv_id := none }
      (some (JVal.obj [("status", JVal.obj [("isoDownloadURL",
        JVal.str "https://x/images/3fa85f64-5717-4562-b3fc-2c963f66afa6/foo.iso")])]))
      "Seting BMH provisioning state to \"ready\""
      = .ok
          ({ state := "Waiting for ISO URL on InfraEnv",
             infraenv_iso_url :=
               some "https://x/images/3fa85f64-5717-4562-b3fc-2c963f66afa6/foo.iso",
             bmh_iso_url := none,
             infraenv_id := some "3fa85f64-5717-4562-b3fc-2c963f66afa6" },
           "Seting BMH provisioning state to \"ready\"") :=
  claim_c6_wait_infraenv.2.2.2
    { state := "Waiting for ISO URL on InfraEnv", infraenv_iso_url := none,
      bmh_iso_url := none, infraenv_id := none }
    "Seting BMH provisioning state to \"ready\""

/-- C1: in the BMH wait step, when the BareMetalHost is present with a
non-empty `spec.image.url`, the handler stores that URL in `bmh_iso_url` but
(re-)computes `infraenv_id` by applying the extractor to the previously
captured InfraEnv URL, not to the freshly read BMH URL. -/
theorem claim_c1_bmh_id_from_infraenv_url
    (a : AgentState) (bmh : JVal) (next u prev : String) (a' : AgentState)
    (s : String)
    (hprev : a.infraenv_iso_url = some prev)
    (hbmh : bmhIsoUrl bmh = some u) (hu : u ≠ "")
    (hres : wait_iso_url_bmh a (some bmh) next = .ok (a', s)) :
    a'.bmh_iso_url = some u ∧ a'.infraenv_iso_url = some prev ∧
      ∃ i, get_infraenv_id_from_url prev = .ok i ∧ a'.infraenv_id = some i := by
  unfold wait_iso_url_bmh at hres
  dsimp only at hres
  rw [hbmh] at hres
  dsimp only at hres
  rw [if_neg hu, hprev] at hres
  dsimp only at hres
  cases hgi : get_infraenv_id_from_url prev with
  | ok i =>
    rw [hgi] at hres
    simp only [Except.ok.injEq, Prod.mk.injEq] at hres
    obtain ⟨ha', _⟩ := hres
    subst ha'
    exact ⟨rfl, rfl, i, rfl, rfl⟩
  | error e => rw [hgi] at hres; cases hres

/-- Witness for C1: the stored InfraEnv URL and the freshly read BMH URL
carry different UUIDs; after the step the identifier is the one embedded in
the InfraEnv URL, not the one in the BMH URL. -/
theorem claim_c1_bmh_id_from_infraenv_url_witness :
    ∃ i, get_infraenv_id_from_url
        "https://x/images/3fa85f64-5717-4562-b3fc-2c963f66afa6/x.iso" = .ok i ∧
      AgentState.infraenv_id
        { state := "Waiting for ISO URL on BMH",
          infraenv_iso_url :=
            some "https://x/images/3fa85f64-5717-4562-b3fc-2c963f66afa6/x.iso",
          bmh_iso_url :=
            some "https://y/images/99999999-9999-4999-8999-999999999999/y.iso",
          infraenv_id := some "3fa85f64-5717-4562-b3fc-2c963f66afa6" }
        = some i :=
  (claim_c1_bmh_id_from_infraenv_url
    { state := "Waiting for ISO URL on BMH",
      infraenv_iso_url :=
        some "https://x/images/3fa85f64-5717-4562-b3fc-2c963f66afa6/x.iso",
      bmh_iso_url := none, infraenv_id := none }
    (JVal.obj [("spec", JVal.obj [("image", JVal.obj [("url",
      JVal.str "https://y/images/99999999-9999-4999-8999-999999999999/y.iso")])])])
    "Download ISO" "https://y/images/99999999-9999-4999-8999-999999999999/y.iso"
    "https://x/images/3fa85f64-5717-4562-b3fc-2c963f66afa6/x.iso"
    { state := "Waiting for ISO URL on BMH",
      infraenv_iso_url :=
        some "https://x/images/3fa85f64-5717-4562-b3fc-2c963f66afa6/x.iso",
      bmh_iso_url :=
        some "https://y/images/99999999-9999-4999-8999-999999999999/y.iso",
      infraenv_id := some "3fa85f64-5717-4562-b3fc-2c963f66afa6" }
    "Download ISO" rfl rfl (by decide) rfl).2.2

/-- Assigning a dict key makes the subsequent lookup of that key return the
assigned value, whatever the dict previously held. -/
theorem dictGet_setKey (fields : List (String × JVal)) (k : String) (v : JVal) :
    dictGet (setKey fields k v) k = some v := by
  induction fields with
  | nil => simp [setKey, dictGet]
  | cons p fields ih =>
    obtain ⟨k', v'⟩ := p
    by_cases hk : k' = k
    · subst hk
      simp [setKey, dictGet]
    · simp only [setKey, dictGet, if_neg hk]
      exact ih

/-- C3: for every requested provisioning state and every prior content of the
cached BareMetalHost, the status object sent by `set_bmh_provisioning_state`
(the `"status"` key of the PUT body) is exactly the fixed full-replacement
object — fixed error count/message, empty credentials and hardware profile,
operational status `"discovered"`, powered-on true, and a provisioning block
with the requested state and empty ID and image url — independent of
whatever status the resource previously carried. -/
theorem claim_c3_full_status_replacement (sw : SwarmAgentConfig)
    (cl : ClusterAgentConfig) (fields : List (String × JVal)) (resp : Nat)
    (st : String) :
    ∃ (req : PutRequest) (sf pf : List (String × JVal)),
      (set_bmh_provisioning_state sw cl (some fields) resp st).request = some req ∧
      req.body = JVal.obj (setKey fields "status" (fixedStatus st)) ∧
      dictGet (setKey fields "status" (fixedStatus st)) "status"
        = some (JVal.obj sf) ∧
      JVal.obj sf = fixedStatus st ∧
      dictGet sf "errorCount" = some (JVal.num 0) ∧
      dictGet sf "errorMessage" = some (JVal.str "") ∧
      dictGet sf "goodCredentials" = some (JVal.obj []) ∧
      dictGet sf "hardwareProfile" = some (JVal.str "") ∧
      dictGet sf "operationalStatus" = some (JVal.str "discovered") ∧
      dictGet sf "poweredOn" = some (JVal.bool true) ∧
      dictGet sf "provisioning" = some (JVal.obj pf) ∧
      dictGet pf "state" = some (JVal.str st) ∧
      dictGet pf "ID" = some (JVal.str "") ∧
      dictGet pf "image" = some (JVal.obj [("url", JVal.str "")]) := by
  refine ⟨_, [("errorCount", JVal.num 0), ("errorMessage", JVal.str ""),
    ("goodCredentials", JVal.obj []), ("hardwareProfile", JVal.str ""),
    ("operationalStatus", JVal.str "discovered"), ("poweredOn", JVal.bool true),
    ("provisioning", JVal.obj [("state", JVal.str st), ("ID", JVal.str ""),
      ("image", JVal.obj [("url", JVal.str "")])])],
    [("state", JVal.str st), ("ID", JVal.str ""),
      ("image", JVal.obj [("url", JVal.str "")])],
    rfl, rfl, ?_, rfl, rfl, rfl, rfl, rfl, rfl, rfl, rfl, rfl, rfl, rfl⟩
  exact dictGet_setKey fields "status" (fixedStatus st)

/-- C4 (amended): the status mutation is an HTTP PUT to
`<api-base>/apis/metal3.io/v1alpha1/namespaces/<cluster>/baremetalhosts/<name>/status`
with bearer-token authorization and TLS verification against the configured
CA certificate, and its JSON body is the full BareMetalHost object in which
the `"status"` key has been replaced by the fixed status object of §4.3 (not
the bare status object alone), for every agent and every requested state. -/
theorem claim_c4_put_request (sw : SwarmAgentConfig) (cl : ClusterAgentConfig)
    (fields : List (String × JVal)) (resp : Nat) (st : String) :
    ∃ req : PutRequest,
      (set_bmh_provisioning_state sw cl (some fields) resp st).request = some req ∧
      req.url = sw.k8s_api_server_url ++ "/apis/metal3.io/v1alpha1/namespaces/"
        ++ cl.cluster_identifier ++ "/baremetalhosts/" ++ cl.identifier ++ "/status" ∧
      req.authorization = "Bearer " ++ sw.token ∧
      req.verify = sw.ca_cert_path ∧
      req.body = JVal.obj (setKey fields "status" (fixedStatus st)) ∧
      dictGet (setKey fields "status" (fixedStatus st)) "status"
        = some (fixedStatus st) :=
  ⟨_, rfl, rfl, rfl, rfl, rfl, dictGet_setKey fields "status" (fixedStatus st)⟩

/-- Counterexample to C4 as stated: for a BareMetalHost that carries a
`"metadata"` field, the JSON body of the PUT is not the fixed status object
of §4.3 — it is the whole resource, whose `"status"` key holds that object. -/
theorem claim_c4_put_request_counterexample :
    ∃ req : PutRequest,
      (set_bmh_provisioning_state sampleSwarmConfig sampleClusterConfig
        (some [("metadata", JVal.str "bmh-metadata")]) 200 "ready").request
        = some req ∧
      req.body ≠ fixedStatus "ready" := by
  refine ⟨_, rfl, ?_⟩
  intro h
  have h2 := congrArg (fun j => (asObj j).map List.length) h
  simp [asObj, fixedStatus, setKey] at h2

/-- C7 (amended): the steps setting the BMH provisioning state to `"ready"`
and `"provisioned"` hold when the BareMetalHost does not exist; when it
exists they advance exactly when `raise_for_status` does not raise — i.e.
on any response status outside 400–599, which includes the non-2xx
informational and redirect ranges — and raise an error to the caller
exactly on a 4xx or 5xx response. -/
theorem claim_c7_bmh_state_steps (sw : SwarmAgentConfig)
    (cl : ClusterAgentConfig) (resp : Nat) (fields : List (String × JVal))
    (cur next : String) :
    (ready_bmh sw cl none resp cur next = .ok cur ∧
     provisioned_bmh sw cl none resp cur next = .ok cur) ∧
    (¬ (400 ≤ resp ∧ resp < 600) →
      ready_bmh sw cl (some fields) resp cur next = .ok next ∧
      provisioned_bmh sw cl (some fields) resp cur next = .ok next) ∧
    (400 ≤ resp ∧ resp < 600 →
      (∃ e, ready_bmh sw cl (some fields) resp cur next = .error e) ∧
      (∃ e, provisioned_bmh sw cl (some fields) resp cur next = .error e)) := by
  refine ⟨⟨rfl, rfl⟩, ?_, ?_⟩
  · intro hok
    unfold ready_bmh provisioned_bmh set_bmh_provisioning_state raise_for_status
    rw [if_neg hok]
    exact ⟨rfl, rfl⟩
  · intro hbad
    unfold ready_bmh provisioned_bmh set_bmh_provisioning_state raise_for_status
    rw [if_pos hbad]
    exact ⟨⟨_, rfl⟩, ⟨_, rfl⟩⟩

/-- Witness for C7 at concrete inputs: HTTP 200 advances both steps, HTTP
500 raises in both steps. -/
theorem claim_c7_bmh_state_steps_witness :
    (ready_bmh sampleSwarmConfig sampleClusterConfig (some []) 200
        "Seting BMH provisioning state to \"ready\"" "Waiting for ISO URL on BMH"
      = .ok "Waiting for ISO URL on BMH" ∧
     provisioned_bmh sampleSwarmConfig sampleClusterConfig (some []) 200
        "Seting BMH provisioning state to \"provisioned\""
        "Generating container configurations"
      = .ok "Generating container configurations") ∧
    ((∃ e, ready_bmh sampleSwarmConfig sampleClusterConfig (some []) 500
        "Seting BMH provisioning state to \"ready\"" "Waiting for ISO URL on BMH"
      = .error e) ∧
     (∃ e, provisioned_bmh sampleSwarmConfig sampleClusterConfig (some []) 500
        "Seting BMH provisioning state to \"provisioned\""
        "Generating container configurations"
      = .error e)) :=
  ⟨⟨((claim_c7_bmh_state_steps sampleSwarmConfig sampleClusterConfig 200 []
      "Seting BMH provisioning state to \"ready\""
      "Waiting for ISO URL on BMH").2.1 (by decide)).1,
    ((claim_c7_bmh_state_steps sampleSwarmConfig sampleClusterConfig 200 []
      "Seting BMH provisioning state to \"provisioned\""
      "Generating container configurations").2.1 (by decide)).2⟩,
   ⟨((claim_c7_bmh_state_steps sampleSwarmConfig sampleClusterConfig 500 []
      "Seting BMH provisioning state to \"ready\""
      "Waiting for ISO URL on BMH").2.2 (by decide)).1,
    ((claim_c7_bmh_state_steps sampleSwarmConfig sampleClusterConfig 500 []
      "Seting BMH provisioning state to \"provisioned\""
      "Generating container configurations").2.2 (by decide)).2⟩⟩

/-- Counterexample to C7 as stated: HTTP 304 is not a 2xx response, yet the
step does not raise — `raise_for_status` only raises for 4xx/5xx — and the
handler advances. -/
theorem claim_c7_bmh_state_steps_counterexample :
    ¬ (200 ≤ 304 ∧ 304 < 300) ∧
    ready_bmh sampleSwarmConfig sampleClusterConfig (some []) 304
        "Seting BMH provisioning state to \"ready\"" "Waiting for ISO URL on BMH"
      = .ok "Waiting for ISO URL on BMH" :=
  ⟨by decide, rfl⟩

/-- The first element (if any) of what `dropWhile` leaves fails the
predicate. -/
theorem head_dropWhile_false {α : Type} (p : α → Bool) (l : List α) :
    ∀ c, (l.dropWhile p).head? = some c → p c = false := by
  induction l with
  | nil => intro c h; cases h
  | cons a l ih =>
    intro c h
    rw [List.dropWhile_cons] at h
    by_cases hp : p a
    · rw [if_pos hp] at h
      exact ih c h
    · rw [if_neg hp] at h
      simp only [List.head?_cons, Option.some.injEq] at h
      subst h
      exact Bool.eq_false_iff.mpr hp

/-- C10: in the environment built for the agent binary launch, `DRY_IPS` is
the comma-join of each cluster IP truncated at its first `/` (`splitSlashHead`
returns a slash-free prefix of the IP, cut exactly at a `/` when one is
present), while `DRY_FORCED_HOST_IPV4` is the agent's `machine_ip` passed
through unmodified and `DRY_HOSTNAMES` is the comma-join of the cluster
hostnames unmodified — for every agent identity. -/
theorem claim_c10_agent_environment (sw : SwarmAgentConfig)
    (cl : ClusterAgentConfig) (cc csc hid frmp : String) :
    envGet (agent_environment sw cl cc csc hid frmp) "DRY_IPS"
      = some (String.intercalate "," (cl.cluster_ips.map splitSlashHead)) ∧
    (∀ ip : String, '/' ∉ (splitSlashHead ip).data ∧
      ∃ rest : List Char, ip.data = (splitSlashHead ip).data ++ rest ∧
        ∀ c, rest.head? = some c → c = '/') ∧
    envGet (agent_environment sw cl cc csc hid frmp) "DRY_FORCED_HOST_IPV4"
      = some cl.machine_ip ∧
    envGet (agent_environment sw cl cc csc hid frmp) "DRY_HOSTNAMES"
      = some (String.intercalate "," cl.cluster_hostnames) := by
  refine ⟨rfl, ?_, rfl, rfl⟩
  intro ip
  constructor
  · intro hmem
    have h := List.mem_takeWhile_imp hmem
    simp at h
  · refine ⟨ip.data.dropWhile (fun c => c ≠ '/'), ?_, ?_⟩
    · exact (List.takeWhile_append_dropWhile (fun c => c ≠ '/') ip.data).symm
    · intro c hc
      have h := head_dropWhile_false (fun c => c ≠ '/') ip.data c hc
      simpa using h

/-- Witness for C10 at the sample identity: the CIDR suffix `/24` is
stripped from each entry of `DRY_IPS` but kept verbatim in
`DRY_FORCED_HOST_IPV4`, and the hostnames are joined unmodified. -/
theorem claim_c10_agent_environment_witness :
    (envGet (agent_environment sampleSwarmConfig sampleClusterConfig
        "/a/containers.conf" "/a/storage.conf" "hid" "/a/marker") "DRY_IPS"
      = some (String.intercalate ","
          (sampleClusterConfig.cluster_ips.map splitSlashHead))) ∧
    String.intercalate "," (sampleClusterConfig.cluster_ips.map splitSlashHead)
      = "192.168.1.10,192.168.1.11" ∧
    (envGet (agent_environment sampleSwarmConfig sampleClusterConfig
        "/a/containers.conf" "/a/storage.conf" "hid" "/a/marker")
        "DRY_FORCED_HOST_IPV4"
      = some "192.168.1.10/24") ∧
    (envGet (agent_environment sampleSwarmConfig sampleClusterConfig
        "/a/containers.conf" "/a/storage.conf" "hid" "/a/marker") "DRY_HOSTNAMES"
      = some "node-0,node-1") :=
  ⟨(claim_c10_agent_environment sampleSwarmConfig sampleClusterConfig
      "/a/containers.conf" "/a/storage.conf" "hid" "/a/marker").1,
   by decide,
   (claim_c10_agent_environment sampleSwarmConfig sampleClusterConfig
      "/a/containers.conf" "/a/storage.conf" "hid" "/a/marker").2.2.1,
   (claim_c10_agent_environment sampleSwarmConfig sampleClusterConfig
      "/a/containers.conf" "/a/storage.conf" "hid" "/a/marker").2.2.2⟩

/-- C8: the run-agent step returns the current state (hold) for every
non-zero exit code of the launched process and the next state for exit code
0; in the pipeline ordering the step after `"Running agent"` is `"Done"`,
and once the engine's pointer is at the terminal `"Done"` step the run
invokes no further handler. -/
theorem claim_c8_run_agent :
    (∀ (ec : Int) (cur next : String), ec ≠ 0 → run_agent_step ec cur next = cur) ∧
    (∀ cur next : String, run_agent_step 0 cur next = next) ∧
    nextOf agentStepOrder "Running agent" = some "Done" ∧
    (∀ (handler : String → String → String) (fuel : Nat),
      engineInvoked handler agentStepOrder "Done" fuel "Done" = []) := by
  refine ⟨?_, fun cur next => rfl, by decide, ?_⟩
  · intro ec cur next hec
    unfold run_agent_step
    rw [if_pos hec]
  · intro handler fuel
    cases fuel with
    | zero => rfl
    | succ n =>
      rw [engineInvoked]
      rw [if_pos rfl]

/-- Witness for C8: scenario D — exit code 137 holds at `"Running agent"`,
exit code 0 advances to `"Done"`. -/
theorem claim_c8_run_agent_witness :
    run_agent_step 137 "Running agent" "Done" = "Running agent" ∧
    run_agent_step 0 "Running agent" "Done" = "Done" :=
  ⟨claim_c8_run_agent.1 137 "Running agent" "Done" (by decide),
   claim_c8_run_agent.2.1 "Running agent" "Done"⟩

/-- C9: the engine never invokes the terminal step's handler — for every
handler, step list, terminal name, fuel and start state, the terminal name
is not among the steps whose handler the run invokes, and a run starting at
the terminal state invokes nothing at all. -/
theorem claim_c9_terminal_never_invoked :
    (∀ (handler : String → String → String) (steps : List String)
        (terminal : String) (fuel : Nat) (start : String),
      terminal ∉ engineInvoked handler steps terminal fuel start) ∧
    (∀ (handler : String → String → String) (steps : List String)
        (terminal : String) (fuel : Nat),
      engineInvoked handler steps terminal fuel terminal = []) := by
  constructor
  · intro handler steps terminal fuel
    induction fuel with
    | zero => intro start; simp [engineInvoked]
    | succ n ih =>
      intro start
      rw [engineInvoked]
      by_cases h : start = terminal
      · rw [if_pos h]
        simp
      · rw [if_neg h]
        simp only [List.mem_cons, not_or]
        exact ⟨fun he => h he.symm, ih _⟩
  · intro handler steps terminal fuel
    cases fuel with
    | zero => rfl
    | succ n =>
      rw [engineInvoked]
      rw [if_pos rfl]

/-- Witness for C9: a concrete run of the nine-step pipeline with an
always-advance handler never invokes `"Done"`. -/
theorem claim_c9_terminal_never_invoked_witness :
    "Done" ∉ engineInvoked (fun _ n => n) agentStepOrder "Done" 20 "Initializing" :=
  claim_c9_terminal_never_invoked.1 (fun _ n => n) agentStepOrder "Done" 20
    "Initializing"

/-- The first element of the visited-pointer sequence is the starting
pointer. -/
theorem engineStates_head (handler : String → String → String)
    (steps : List String) (terminal : String) (fuel : Nat) (start : String) :
    (engineStates handler steps terminal fuel start).head? = some start := by
  cases fuel with
  | zero => rfl
  | succ n =>
    rw [engineStates]
    by_cases h : start = terminal
    · rw [if_pos h]
      rfl
    · rw [if_neg h]
      rfl

/-- C5: every protocol step handler returns either the supplied next-state
name or the current state name, never any other state — shown for all nine
handlers of the pipeline — and, in the engine, a handler restricted to those
two return values makes the pointer sequence of every run advance only to
the literal next step in the fixed ordering or hold at the current step,
never regressing and never skipping. -/
theorem claim_c5_advance_or_hold :
    (∀ next : String, initStep next = .ok next) ∧
    (∀ (a : AgentState) (ie : Option JVal) (next : String) (a' : AgentState)
        (s : String), wait_iso_url_infraenv a ie next = .ok (a', s) →
      s = next ∨ s = a.state) ∧
    (∀ (sw : SwarmAgentConfig) (cl : ClusterAgentConfig)
        (bmh : Option (List (String × JVal))) (resp : Nat) (cur next s : String),
      ready_bmh sw cl bmh resp cur next = .ok s → s = next ∨ s = cur) ∧
    (∀ (a : AgentState) (bmh : Option JVal) (next : String) (a' : AgentState)
        (s : String), wait_iso_url_bmh a bmh next = .ok (a', s) →
      s = next ∨ s = a.state) ∧
    (∀ (ec : Int) (next s : String), download_iso ec next = .ok s → s = next) ∧
    (∀ (sw : SwarmAgentConfig) (cl : ClusterAgentConfig)
        (bmh : Option (List (String × JVal))) (resp : Nat) (cur next s : String),
      provisioned_bmh sw cl bmh resp cur next = .ok s → s = next ∨ s = cur) ∧
    (∀ (ok : Bool) (next s : String),
      create_container_configs ok next = .ok s → s = next) ∧
    (∀ (ec : Int) (cur next : String),
      run_agent_step ec cur next = cur ∨ run_agent_step ec cur next = next) ∧
    (∀ cur : String, done cur = cur) ∧
    (∀ (handler : String → String → String) (steps : List String)
        (terminal : String),
      (∀ cur next, handler cur next = cur ∨ handler cur next = next) →
      ∀ (fuel : Nat) (start : String),
        (engineStates handler steps terminal fuel start).Chain'
          (fun x y => y = x ∨ nextOf steps x = some y)) := by
  refine ⟨fun next => rfl, ?_, ?_, ?_, ?_, ?_, ?_, ?_, fun cur => rfl, ?_⟩
  · intro a ie next a' s h
    cases ie with
    | none =>
      unfold wait_iso_url_infraenv at h
      simp only [Except.ok.injEq, Prod.mk.injEq] at h
      exact Or.inr h.2.symm
    | some ie' =>
      unfold wait_iso_url_infraenv at h
      dsimp only at h
      cases hiso : infraenvIsoUrl ie' with
      | none => rw [hiso] at h; cases h
      | some u =>
        rw [hiso] at h
        dsimp only at h
        by_cases hu : u = ""
        · rw [if_pos hu] at h
          simp only [Except.ok.injEq, Prod.mk.injEq] at h
          exact Or.inr h.2.symm
        · rw [if_neg hu] at h
          cases hgi : get_infraenv_id_from_url u with
          | ok i =>
            rw [hgi] at h
            simp only [Except.ok.injEq, Prod.mk.injEq] at h
            exact Or.inl h.2.symm
          | error e => rw [hgi] at h; cases h
  · intro sw cl bmh resp cur next s h
    cases bmh with
    | none =>
      unfold ready_bmh set_bmh_provisioning_state at h
      simp only [Except.ok.injEq] at h
      exact Or.inr h.symm
    | some fields =>
      unfold ready_bmh set_bmh_provisioning_state at h
      dsimp only at h
      cases hrs : raise_for_status resp with
      | ok u =>
        rw [hrs] at h
        simp only [Except.ok.injEq] at h
        exact Or.inl h.symm
      | error e => rw [hrs] at h; cases h
  · intro a bmh next a' s h
    cases bmh with
    | none =>
      unfold wait_iso_url_bmh at h
      simp only [Except.ok.injEq, Prod.mk.injEq] at h
      exact Or.inr h.2.symm
    | some b =>
      unfold wait_iso_url_bmh at h
      dsimp only at h
      cases hiso : bmhIsoUrl b with
      | none => rw [hiso] at h; cases h
      | some u =>
        rw [hiso] at h
        dsimp only at h
        by_cases hu : u = ""
        · rw [if_pos hu] at h
          simp only [Except.ok.injEq, Prod.mk.injEq] at h
          exact Or.inr h.2.symm
        · rw [if_neg hu] at h
          cases hprev : a.infraenv_iso_url with
          | none => rw [hprev] at h; cases h
          | some prev =>
            rw [hprev] at h
            dsimp only at h
            cases hgi : get_infraenv_id_from_url prev with
            | ok i =>
              rw [hgi] at h
              simp only [Except.ok.injEq, Prod.mk.injEq] at h
              exact Or.inl h.2.symm
            | error e => rw [hgi] at h; cases h
  · intro ec next s h
    unfold download_iso at h
    split at h
    · cases h
    · simp only [Except.ok.injEq] at h
      exact h.symm
  · intro sw cl bmh resp cur next s h
    cases bmh with
    | none =>
      unfold provisioned_bmh set_bmh_provisioning_state at h
      simp only [Except.ok.injEq] at h
      exact Or.inr h.symm
    | some fields =>
      unfold provisioned_bmh set_bmh_provisioning_state at h
      dsimp only at h
      cases hrs : raise_for_status resp with
      | ok u =>
        rw [hrs] at h
        simp only [Except.ok.injEq] at h
        exact Or.inl h.symm
      | error e => rw [hrs] at h; cases h
  · intro ok next s h
    unfold create_container_configs at h
    split at h
    · simp only [Except.ok.injEq] at h
      exact h.symm
    · cases h
  · intro ec cur next
    unfold run_agent_step
    by_cases h : ec ≠ 0
    · rw [if_pos h]
      exact Or.inl rfl
    · rw [if_neg h]
      exact Or.inr rfl
  · intro handler steps terminal hh fuel
    induction fuel with
    | zero =>
      intro start
      simp [engineStates]
    | succ n ih =>
      intro start
      rw [engineStates]
      by_cases ht : start = terminal
      · rw [if_pos ht]
        simp
      · rw [if_neg ht]
        refine List.chain'_cons'.mpr ⟨?_, ih _⟩
        intro z hz
        rw [engineStates_head] at hz
        have hzeq : z = handler start ((nextOf steps start).getD start) := by
          simpa using hz.symm
        rcases hh start ((nextOf steps start).getD start) with hc | hc
        · exact Or.inl (by rw [hzeq, hc])
        · cases hnext : nextOf steps start with
          | none =>
            refine Or.inl ?_
            rw [hzeq, hc, hnext]
            rfl
          | some nx =>
            refine Or.inr ?_
            rw [hzeq, hc, hnext]
            rfl

/-- Witness for C5: a concrete twenty-fuel run of the nine-step pipeline with
an always-advance handler has a pointer sequence that only advances in
order or holds. -/
theorem claim_c5_advance_or_hold_witness :
    (engineStates (fun _ n => n) agentStepOrder "Done" 20 "Initializing").Chain'
      (fun x y => y = x ∨ nextOf agentStepOrder x = some y) :=
  claim_c5_advance_or_hold.2.2.2.2.2.2.2.2.2 (fun _ n => n) agentStepOrder
    "Done" (fun _ _ => Or.inr rfl) 20 "Initializing"
